import Mathlib

/-!
Shallow embedding of `createSelectiveContext` (src/unnamed/part_000), the
selective-subscription store of this repository, together with proofs of the
spec's claims about it.

Modelling choices:
* A state value is a JSON-representable tree `Jx`; the store's state is a
  top-level object: a list of (field name, value) pairs in insertion order,
  mirroring a plain JavaScript object.
* JavaScript object identity is modelled by a reference counter in the store:
  every object allocation (the spread in `set`, the parsed snapshot) draws a
  fresh natural number from `nextRef`.
* The listener registry (`subscribers`, a JavaScript `Set` of callbacks) is a
  duplicate-free insertion-ordered list of listener identities (`Nat`).
* Effects of one `set` call are recorded as an ordered event trace: the
  installation of the new state reference, one notification per subscriber,
  the snapshot callback invocation, and `console.error` logging.
-/

mutual

/-- Model of a JSON-representable JavaScript value (the shape of states this
store holds, `JSON.parse`/`JSON.stringify` being total on them). -/
inductive Jx : Type where
  | null : Jx
  | bool : Bool → Jx
  | num : Int → Jx
  | str : String → Jx
  | arr : JxList → Jx
  | obj : JxFields → Jx

inductive JxList : Type where
  | nil : JxList
  | cons : Jx → JxList → JxList

inductive JxFields : Type where
  | nil : JxFields
  | cons : String → Jx → JxFields → JxFields

end

/-- Top-level shape of a state object: named fields in insertion order. -/
abbrev Obj : Type := List (String × Jx)

mutual

/-- Model of `JSON.parse(JSON.stringify(v))` on a nested value: rebuilding the
whole tree, i.e. a deep copy yielding a fresh object graph. -/
def deepCopyJx : Jx → Jx
  | .null => .null
  | .bool b => .bool b
  | .num n => .num n
  | .str s => .str s
  | .arr xs => .arr (deepCopyJxList xs)
  | .obj fs => .obj (deepCopyJxFields fs)

def deepCopyJxList : JxList → JxList
  | .nil => .nil
  | .cons x xs => .cons (deepCopyJx x) (deepCopyJxList xs)

def deepCopyJxFields : JxFields → JxFields
  | .nil => .nil
  | .cons k v fs => .cons k (deepCopyJx v) (deepCopyJxFields fs)

end

/-- Model of `JSON.parse(JSON.stringify(o))` on a top-level state object. -/
def deepCopyObj (o : Obj) : Obj :=
  o.map (fun kv => (kv.1, deepCopyJx kv.2))

mutual

theorem deepCopyJx_eq : ∀ v : Jx, deepCopyJx v = v
  | .null => rfl
  | .bool _ => rfl
  | .num _ => rfl
  | .str _ => rfl
  | .arr xs => by rw [deepCopyJx, deepCopyJxList_eq]
  | .obj fs => by rw [deepCopyJx, deepCopyJxFields_eq]

theorem deepCopyJxList_eq : ∀ xs : JxList, deepCopyJxList xs = xs
  | .nil => rfl
  | .cons x xs => by rw [deepCopyJxList, deepCopyJx_eq, deepCopyJxList_eq]

theorem deepCopyJxFields_eq : ∀ fs : JxFields, deepCopyJxFields fs = fs
  | .nil => rfl
  | .cons k v fs => by rw [deepCopyJxFields, deepCopyJx_eq, deepCopyJxFields_eq]

end

theorem deepCopyObj_eq (o : Obj) : deepCopyObj o = o := by
  unfold deepCopyObj
  induction o with
  | nil => rfl
  | cons kv rest ih => simp [List.map, deepCopyJx_eq, ih]

/-- Field lookup in a top-level object (`o[k]`). -/
def lookupField (o : Obj) (k : String) : Option Jx :=
  match o with
  | [] => none
  | (k', v) :: rest => if k' = k then some v else lookupField rest k

/-- Model of the JavaScript object spread `{...a, ...b}`: fields of `a` keep
their positions, a field named in `b` is fully replaced by `b`'s value (no
recursive merge), fields of `b` absent from `a` are appended in `b`'s order. -/
def spreadMerge (a b : Obj) : Obj :=
  a.map (fun kv =>
    match lookupField b kv.1 with
    | some v => (kv.1, v)
    | none => kv)
  ++ b.filter (fun kv => (lookupField a kv.1).isNone)

theorem spreadMerge_nil_right (a : Obj) : spreadMerge a [] = a := by
  unfold spreadMerge
  simp [lookupField, List.filter]

/-- Model of the `NewData` union `Partial<State> | ((state: State) => Partial<State>)`:
an update is either a record of top-level fields, or a function of the current
state; the function may throw (modelled as `Except.error`). -/
inductive NewData : Type where
  | record : Obj → NewData
  | func : (Obj → Except String Obj) → NewData

/-- Model of the resolution step at the top of `set`:
`typeof newData === 'function' ? newData(data.current) : newData`. -/
def resolveUpd (current : Obj) : NewData → Except String Obj
  | .record u => Except.ok u
  | .func f => f current

/-- Store state of `useContextStore`: the current state value (`data.current`),
the object reference currently held by `data.current`, a fresh-reference
allocator modelling JavaScript object identity, and the subscriber `Set`
(insertion-ordered, duplicate-free list of listener identities). -/
structure Store : Type where
  data : Obj
  dataRef : Nat
  nextRef : Nat
  subscribers : List Nat

/-- Model of `const data = useRef<State>(initialData)` together with
`const subscribers = useRef(new Set())`: initial ref 0 held by the state,
allocator at 1, empty listener set. -/
def useContextStore (initialData : Obj) : Store :=
  ⟨initialData, 0, 1, []⟩

/-- Model of `get`: `() => data.current`. -/
def Store.get (st : Store) : Obj :=
  st.data

/-- Observable events of one `set` call, in the order they happen. -/
inductive Event : Type where
  | installed : Obj → Nat → Event
  | notify : Nat → Event
  | callbackInvoked : Obj → Nat → Event
  | logged : String → Event

/-- Result of one `set` call: the store afterwards, the ordered event trace,
and the exception propagated to the caller, if any. -/
structure SetResult : Type where
  store : Store
  events : List Event
  thrown : Option String

/-- Model of `subscribers.current.forEach((callback) => callback())`: one
notification per registered listener, in the set's enumeration order. -/
def notifyAll (subs : List Nat) : List Event :=
  subs.map Event.notify

/-- Model of the `try { updateContextCallback?.(JSON.parse(JSON.stringify(data.current))) }
catch (error) { console.error(...) }` block. The optional call short-circuits:
with no callback the snapshot is never built. The serializer is a parameter
because `JSON.stringify` can throw in JavaScript (circular graphs, BigInt);
on the acyclic values modelled here its behavior is `jsonRoundTrip` below.
Returns the events of the block and the allocator after it; any error raised
inside is caught and logged, never rethrown. -/
def tryCallback (cb : Option (Obj → Except String Unit))
    (ser : Obj → Except String Obj) (current : Obj) (snapRef : Nat) :
    List Event × Nat :=
  match cb with
  | none => ([], snapRef)
  | some f =>
    match ser current with
    | .error err => ([Event.logged err], snapRef)
    | .ok snap =>
      match f snap with
      | .ok _ => ([Event.callbackInvoked snap snapRef], snapRef + 1)
      | .error err => ([Event.callbackInvoked snap snapRef, Event.logged err], snapRef + 1)

/-- Behavior of `JSON.parse(JSON.stringify(x))` on the JSON-representable
values modelled here: always succeeds, returning a deep copy (the copy's fresh
reference is drawn by `tryCallback`). -/
def jsonRoundTrip (v : Obj) : Except String Obj :=
  Except.ok (deepCopyObj v)

/-- Model of `set`: resolve a function-form update against the current state
(an exception there propagates with nothing changed); shallow-merge the
resolved record over the current state into a fresh object installed as
`data.current`; synchronously notify every registered listener; then attempt
the snapshot callback inside the try/catch. -/
def Store.set (cb : Option (Obj → Except String Unit)) (ser : Obj → Except String Obj)
    (st : Store) (newData : NewData) : SetResult :=
  match resolveUpd st.data newData with
  | .error e => ⟨st, [], some e⟩
  | .ok updatedData =>
    let merged := spreadMerge st.data updatedData
    let tc := tryCallback cb ser merged (st.nextRef + 1)
    ⟨⟨merged, st.nextRef, tc.2, st.subscribers⟩,
      Event.installed merged st.nextRef :: (notifyAll st.subscribers ++ tc.1),
      none⟩

/-- Model of `subscribers.current.add(callback)` inside `subscribe`: a
JavaScript `Set` keeps insertion order and ignores a duplicate add. -/
def subscribe (st : Store) (id : Nat) : Store :=
  ⟨st.data, st.dataRef, st.nextRef,
    if id ∈ st.subscribers then st.subscribers else st.subscribers ++ [id]⟩

/-- Model of the capability returned by `subscribe`:
`() => subscribers.current.delete(callback)` removes exactly that listener. -/
def unsubscribe (st : Store) (id : Nat) : Store :=
  ⟨st.data, st.dataRef, st.nextRef, st.subscribers.filter (fun l => l ≠ id)⟩

/-- Listener identity carried by a notification event, if any. -/
def eventListener : Event → Option Nat
  | .notify l => some l
  | _ => none

/-- Listeners actually notified during a `set` call, in order. -/
def SetResult.notified (r : SetResult) : List Nat :=
  r.events.filterMap eventListener

/-- Iterating `set` over a sequence of updates, threading the store. -/
def runSets (cb : Option (Obj → Except String Unit)) (ser : Obj → Except String Obj)
    (st : Store) : List NewData → Store
  | [] => st
  | u :: rest => runSets cb ser (Store.set cb ser st u).store rest

/-- Stated from the spec's words, for comparison with `runSets`: iteratively
shallow top-level merging the initial state with each update in order, a
function-form update being resolved against the state current at that point. -/
def specIterShallowMerge (s : Obj) : List NewData → Except String Obj
  | [] => Except.ok s
  | u :: rest =>
    match resolveUpd s u with
    | .error e => Except.error e
    | .ok upd => specIterShallowMerge (spreadMerge s upd) rest

/-- Model of the triple the hook hands to `useSyncExternalStore`: the live
snapshot reader `() => selector(context.get())` and the fallback reader
`() => selector(initialState)` used before the binding attaches to a live
store snapshot. -/
structure Hook (Output : Type) : Type where
  getSnapshot : Unit → Output
  getServerSnapshot : Unit → Output

/-- Model of the `useContext` hook of the source: reads the context value; if
no provider put a store in scope it throws `Error('Context creation error')`;
otherwise it builds the `useSyncExternalStore` binding from the store. -/
def useContext {Output : Type} (initialState : Obj) (selector : Obj → Output)
    (ctx : Option Store) : Except String (Hook Output) :=
  match ctx with
  | none => Except.error "Context creation error"
  | some context => Except.ok ⟨fun _ => selector context.get, fun _ => selector initialState⟩

theorem set_of_resolve_ok (cb : Option (Obj → Except String Unit))
    (ser : Obj → Except String Obj) (st : Store) (u : NewData) (upd : Obj)
    (h : resolveUpd st.data u = Except.ok upd) :
    Store.set cb ser st u =
      ⟨⟨spreadMerge st.data upd, st.nextRef,
          (tryCallback cb ser (spreadMerge st.data upd) (st.nextRef + 1)).2,
          st.subscribers⟩,
        Event.installed (spreadMerge st.data upd) st.nextRef ::
          (notifyAll st.subscribers ++
            (tryCallback cb ser (spreadMerge st.data upd) (st.nextRef + 1)).1),
        none⟩ := by
  unfold Store.set
  rw [h]

theorem set_of_resolve_error (cb : Option (Obj → Except String Unit))
    (ser : Obj → Except String Obj) (st : Store) (u : NewData) (e : String)
    (h : resolveUpd st.data u = Except.error e) :
    Store.set cb ser st u = ⟨st, [], some e⟩ := by
  unfold Store.set
  rw [h]

theorem tryCallback_no_notify (cb : Option (Obj → Except String Unit))
    (ser : Obj → Except String Obj) (cur : Obj) (r l : Nat) :
    Event.notify l ∉ (tryCallback cb ser cur r).1 := by
  unfold tryCallback
  cases cb with
  | none => simp
  | some f =>
    cases hs : ser cur with
    | error err => simp
    | ok snap =>
      cases hf : f snap with
      | ok _ => simp [hf]
      | error err => simp [hf]

theorem eventListener_notifyAll (subs : List Nat) :
    (notifyAll subs).filterMap eventListener = subs := by
  induction subs with
  | nil => rfl
  | cons a t ih =>
    simp only [notifyAll, List.map_cons, List.filterMap_cons] at *
    simp only [eventListener, ih]

theorem eventListener_tryCallback (cb : Option (Obj → Except String Unit))
    (ser : Obj → Except String Obj) (cur : Obj) (r : Nat) :
    ((tryCallback cb ser cur r).1).filterMap eventListener = [] := by
  unfold tryCallback
  cases cb with
  | none => simp
  | some f =>
    cases hs : ser cur with
    | error err => simp [eventListener]
    | ok snap =>
      cases hf : f snap with
      | ok _ => simp [hf, eventListener]
      | error err => simp [hf, eventListener]

theorem notified_set_ok (cb : Option (Obj → Except String Unit))
    (ser : Obj → Except String Obj) (st : Store) (u : NewData) (upd : Obj)
    (h : resolveUpd st.data u = Except.ok upd) :
    (Store.set cb ser st u).notified = st.subscribers := by
  rw [SetResult.notified, set_of_resolve_ok cb ser st u upd h]
  simp only [List.filterMap_cons, List.filterMap_append, eventListener,
    eventListener_notifyAll, eventListener_tryCallback, List.append_nil]

theorem notify_mem_set_events (cb : Option (Obj → Except String Unit))
    (ser : Obj → Except String Obj) (st : Store) (u : NewData) (upd : Obj) (l : Nat)
    (h : resolveUpd st.data u = Except.ok upd) :
    Event.notify l ∈ (Store.set cb ser st u).events ↔ l ∈ st.subscribers := by
  rw [set_of_resolve_ok cb ser st u upd h]
  simp only [List.mem_cons, List.mem_append, notifyAll, List.mem_map]
  constructor
  · rintro (hc | ⟨a, ha, hal⟩ | htc)
    · cases hc
    · cases hal
      exact ha
    · exact absurd htc (tryCallback_no_notify cb ser _ _ l)
  · intro hl
    exact Or.inr (Or.inl ⟨l, hl, rfl⟩)

theorem set_store_ok (cb : Option (Obj → Except String Unit))
    (ser : Obj → Except String Obj) (st : Store) (u : NewData) (upd : Obj)
    (h : resolveUpd st.data u = Except.ok upd) :
    (Store.set cb ser st u).store =
      ⟨spreadMerge st.data upd, st.nextRef,
        (tryCallback cb ser (spreadMerge st.data upd) (st.nextRef + 1)).2,
        st.subscribers⟩ := by
  rw [set_of_resolve_ok cb ser st u upd h]

theorem callbackInvoked_mem_tryCallback (f : Obj → Except String Unit)
    (cur : Obj) (r : Nat) :
    Event.callbackInvoked (deepCopyObj cur) r ∈
      (tryCallback (some f) jsonRoundTrip cur r).1 := by
  unfold tryCallback jsonRoundTrip
  cases hf : f (deepCopyObj cur) with
  | ok _ => simp [hf]
  | error e => simp [hf]

theorem logged_mem_tryCallback_of_throw (f : Obj → Except String Unit)
    (cur : Obj) (r : Nat) (e : String) (h : f (deepCopyObj cur) = Except.error e) :
    Event.logged e ∈ (tryCallback (some f) jsonRoundTrip cur r).1 := by
  unfold tryCallback jsonRoundTrip
  simp [h]

/-- Demo inputs used by the witness theorems. -/
def demoState : Obj := [("a", Jx.num 1), ("b", Jx.num 2)]

def demoStore : Store := ⟨demoState, 0, 1, [5, 7]⟩

def demoUpd : NewData := NewData.record [("b", Jx.num 3)]

def throwingCb : Obj → Except String Unit := fun _ => Except.error "boom"

def okCb : Obj → Except String Unit := fun _ => Except.ok ()

/-- Claim C1: for every initial state and every finite sequence of updates
passed to `set` (records or functions of the current state, a function
resolved against the state current at that call), the state `get` returns
afterwards equals the iterated shallow top-level merge of the initial state
with each resolved update in order. -/
theorem spec_C1 (cb : Option (Obj → Except String Unit))
    (ser : Obj → Except String Obj) (st : Store) (us : List NewData) (final : Obj)
    (h : specIterShallowMerge st.get us = Except.ok final) :
    (runSets cb ser st us).get = final := by
  induction us generalizing st with
  | nil =>
    simp only [specIterShallowMerge, Except.ok.injEq] at h
    rw [runSets]
    exact h
  | cons u rest ih =>
    rw [specIterShallowMerge] at h
    rw [runSets]
    cases hres : resolveUpd st.get u with
    | error e =>
      rw [hres] at h
      cases h
    | ok upd =>
      rw [hres] at h
      have hset := set_of_resolve_ok cb ser st u upd hres
      rw [hset]
      exact ih _ h

theorem spec_C1_witness :
    specIterShallowMerge (useContextStore demoState).get [demoUpd] =
        Except.ok [("a", Jx.num 1), ("b", Jx.num 3)] ∧
    (runSets none jsonRoundTrip (useContextStore demoState) [demoUpd]).get =
        [("a", Jx.num 1), ("b", Jx.num 3)] :=
  ⟨rfl, spec_C1 none jsonRoundTrip (useContextStore demoState) [demoUpd] _ rfl⟩

/-- Claim C4: `set({})` leaves the state value structurally unchanged, still
installs a fresh object reference (distinct from the previous one, given the
allocator invariant that the held reference is not the next fresh one), still
notifies every registered listener, and throws nothing. -/
theorem spec_C4 (cb : Option (Obj → Except String Unit))
    (ser : Obj → Except String Obj) (st : Store)
    (h : st.dataRef ≠ st.nextRef) :
    (Store.set cb ser st (NewData.record [])).store.data = st.data ∧
    (Store.set cb ser st (NewData.record [])).store.dataRef ≠ st.dataRef ∧
    (Store.set cb ser st (NewData.record [])).notified = st.subscribers ∧
    (Store.set cb ser st (NewData.record [])).thrown = none := by
  have hres : resolveUpd st.data (NewData.record []) = Except.ok [] := rfl
  refine ⟨?_, ?_, ?_, ?_⟩
  · rw [set_of_resolve_ok cb ser st _ [] hres]
    exact spreadMerge_nil_right st.data
  · rw [set_of_resolve_ok cb ser st _ [] hres]
    exact fun hc => h hc.symm
  · exact notified_set_ok cb ser st _ [] hres
  · rw [set_of_resolve_ok cb ser st _ [] hres]

theorem spec_C4_witness :
    demoStore.dataRef ≠ demoStore.nextRef ∧
    ((Store.set none jsonRoundTrip demoStore (NewData.record [])).store.data = demoStore.data ∧
      (Store.set none jsonRoundTrip demoStore (NewData.record [])).store.dataRef ≠ demoStore.dataRef ∧
      (Store.set none jsonRoundTrip demoStore (NewData.record [])).notified = demoStore.subscribers ∧
      (Store.set none jsonRoundTrip demoStore (NewData.record [])).thrown = none) :=
  ⟨by decide, spec_C4 none jsonRoundTrip demoStore (by decide)⟩

/-- Claim C6: invoking the selective accessor while no providing scope holds a
store fails immediately with the configuration error thrown by the source
(`Error('Context creation error')`) and never returns a defaulted binding. -/
theorem spec_C6 {Output : Type} (init : Obj) (sel : Obj → Output) :
    useContext init sel none = Except.error "Context creation error" := rfl

/-- Claim C7: inside a providing scope, the fallback projection the hook hands
to `useSyncExternalStore` (its server-snapshot reader, used before the binding
attaches to a live store snapshot) equals the selector applied to the initial
state given to the factory; selectors are total functions in this model. -/
theorem spec_C7 {Output : Type} (init : Obj) (sel : Obj → Output) (context : Store) :
    ∃ hk : Hook Output, useContext init sel (some context) = Except.ok hk ∧
      hk.getServerSnapshot () = sel init :=
  ⟨_, rfl, rfl⟩

/-- Claim C9: a function-form update that throws when applied to the current
state makes `set` propagate the error to its caller, with the stored state
unchanged, no listener notified, and the snapshot callback never invoked
(the update is resolved before any mutation). -/
theorem spec_C9 (cb : Option (Obj → Except String Unit))
    (ser : Obj → Except String Obj) (st : Store)
    (f : Obj → Except String Obj) (e : String)
    (h : f st.data = Except.error e) :
    (Store.set cb ser st (NewData.func f)).thrown = some e ∧
    (Store.set cb ser st (NewData.func f)).store = st ∧
    (Store.set cb ser st (NewData.func f)).notified = [] ∧
    ∀ ev ∈ (Store.set cb ser st (NewData.func f)).events, False := by
  have herr : resolveUpd st.data (NewData.func f) = Except.error e := h
  rw [set_of_resolve_error cb ser st _ e herr]
  exact ⟨rfl, rfl, rfl, fun ev hv => by cases hv⟩

theorem spec_C9_witness :
    (fun _ => Except.error "boom" : Obj → Except String Obj) demoStore.data =
        Except.error "boom" ∧
    ((Store.set (some okCb) jsonRoundTrip demoStore
        (NewData.func (fun _ => Except.error "boom"))).thrown = some "boom" ∧
      (Store.set (some okCb) jsonRoundTrip demoStore
        (NewData.func (fun _ => Except.error "boom"))).store = demoStore ∧
      (Store.set (some okCb) jsonRoundTrip demoStore
        (NewData.func (fun _ => Except.error "boom"))).notified = [] ∧
      ∀ ev ∈ (Store.set (some okCb) jsonRoundTrip demoStore
        (NewData.func (fun _ => Except.error "boom"))).events, False) :=
  ⟨rfl, spec_C9 (some okCb) jsonRoundTrip demoStore _ "boom" rfl⟩

/-- Claim C10: within one `set` call the new merged state reference is
installed first, then every registered listener is notified, and only after
that is the snapshot serialization and callback attempted — whatever the
serializer or callback do, the trailing events contain no notification, so
their failure can never prevent or truncate listener notification. -/
theorem spec_C10 (cb : Option (Obj → Except String Unit))
    (ser : Obj → Except String Obj) (st : Store) (u : NewData) (upd : Obj)
    (h : resolveUpd st.data u = Except.ok upd) :
    ∃ tail,
      (Store.set cb ser st u).events =
        Event.installed (spreadMerge st.data upd) st.nextRef ::
          (notifyAll st.subscribers ++ tail) ∧
      (∀ l, Event.notify l ∉ tail) ∧
      (Store.set cb ser st u).store.data = spreadMerge st.data upd ∧
      (Store.set cb ser st u).store.dataRef = st.nextRef ∧
      (Store.set cb ser st u).thrown = none := by
  rw [set_of_resolve_ok cb ser st u upd h]
  exact ⟨(tryCallback cb ser (spreadMerge st.data upd) (st.nextRef + 1)).1,
    rfl, fun l => tryCallback_no_notify cb ser _ _ l, rfl, rfl, rfl⟩

theorem spec_C10_witness :
    resolveUpd demoStore.data demoUpd = Except.ok [("b", Jx.num 3)] ∧
    ∃ tail,
      (Store.set (some throwingCb) jsonRoundTrip demoStore demoUpd).events =
        Event.installed (spreadMerge demoStore.data [("b", Jx.num 3)]) demoStore.nextRef ::
          (notifyAll demoStore.subscribers ++ tail) ∧
      (∀ l, Event.notify l ∉ tail) ∧
      (Store.set (some throwingCb) jsonRoundTrip demoStore demoUpd).store.data =
        spreadMerge demoStore.data [("b", Jx.num 3)] ∧
      (Store.set (some throwingCb) jsonRoundTrip demoStore demoUpd).store.dataRef =
        demoStore.nextRef ∧
      (Store.set (some throwingCb) jsonRoundTrip demoStore demoUpd).thrown = none :=
  ⟨rfl, spec_C10 (some throwingCb) jsonRoundTrip demoStore demoUpd _ rfl⟩

theorem mem_unsubscribe_subscribe (st : Store) (id l : Nat) :
    l ∈ (unsubscribe (subscribe st id) id).subscribers ↔
      (l ∈ st.subscribers ∧ l ≠ id) := by
  unfold unsubscribe subscribe
  by_cases hid : id ∈ st.subscribers
  · simp [hid, List.mem_filter]
  · simp only [hid, if_neg, ite_false, List.mem_filter, List.mem_append,
      List.mem_singleton, decide_eq_true_eq]
    tauto

/-- Claim C5: after every successful `set` with a supplied callback, the
callback is invoked with a snapshot structurally equal to the stored state
(the JSON round trip is the identity on the values modelled here) carried by a
fresh object reference distinct from the live state's reference. -/
theorem spec_C5 (f : Obj → Except String Unit) (st : Store) (u : NewData) (upd : Obj)
    (h : resolveUpd st.data u = Except.ok upd) :
    Event.callbackInvoked ((Store.set (some f) jsonRoundTrip st u).store.data)
        (st.nextRef + 1) ∈ (Store.set (some f) jsonRoundTrip st u).events ∧
    st.nextRef + 1 ≠ (Store.set (some f) jsonRoundTrip st u).store.dataRef := by
  rw [set_of_resolve_ok (some f) jsonRoundTrip st u upd h]
  constructor
  · have hm := callbackInvoked_mem_tryCallback f (spreadMerge st.data upd) (st.nextRef + 1)
    rw [deepCopyObj_eq] at hm
    exact List.mem_cons_of_mem _ (List.mem_append_right _ hm)
  · exact Nat.succ_ne_self st.nextRef

theorem spec_C5_witness :
    resolveUpd demoStore.data demoUpd = Except.ok [("b", Jx.num 3)] ∧
    (Event.callbackInvoked ((Store.set (some okCb) jsonRoundTrip demoStore demoUpd).store.data)
        (demoStore.nextRef + 1) ∈ (Store.set (some okCb) jsonRoundTrip demoStore demoUpd).events ∧
      demoStore.nextRef + 1 ≠ (Store.set (some okCb) jsonRoundTrip demoStore demoUpd).store.dataRef) :=
  ⟨rfl, spec_C5 okCb demoStore demoUpd [("b", Jx.num 3)] rfl⟩

/-- Claim C2: a throwing `onUpdate` callback is caught inside `set`: nothing
is thrown to the caller, the merged state stays installed, the error is
logged, every listener is still notified, and a subsequent `set` succeeds and
notifies listeners normally. -/
theorem spec_C2 (f : Obj → Except String Unit) (st : Store) (u u' : NewData)
    (upd upd' : Obj) (e : String)
    (hres : resolveUpd st.data u = Except.ok upd)
    (hthrow : f (deepCopyObj (spreadMerge st.data upd)) = Except.error e)
    (hres' : resolveUpd (spreadMerge st.data upd) u' = Except.ok upd') :
    (Store.set (some f) jsonRoundTrip st u).thrown = none ∧
    (Store.set (some f) jsonRoundTrip st u).store.data = spreadMerge st.data upd ∧
    Event.logged e ∈ (Store.set (some f) jsonRoundTrip st u).events ∧
    (Store.set (some f) jsonRoundTrip st u).notified = st.subscribers ∧
    (Store.set (some f) jsonRoundTrip (Store.set (some f) jsonRoundTrip st u).store u').thrown = none ∧
    (Store.set (some f) jsonRoundTrip (Store.set (some f) jsonRoundTrip st u).store u').store.data =
      spreadMerge (spreadMerge st.data upd) upd' ∧
    (Store.set (some f) jsonRoundTrip (Store.set (some f) jsonRoundTrip st u).store u').notified =
      st.subscribers := by
  have h1 := set_of_resolve_ok (some f) jsonRoundTrip st u upd hres
  have hdata : (Store.set (some f) jsonRoundTrip st u).store.data = spreadMerge st.data upd := by
    rw [h1]
  have hsubs : (Store.set (some f) jsonRoundTrip st u).store.subscribers = st.subscribers := by
    rw [h1]
  have hr' : resolveUpd (Store.set (some f) jsonRoundTrip st u).store.data u' = Except.ok upd' := by
    rw [hdata]
    exact hres'
  refine ⟨?_, hdata, ?_, notified_set_ok _ _ st u upd hres, ?_, ?_, ?_⟩
  · rw [h1]
  · rw [h1]
    exact List.mem_cons_of_mem _ (List.mem_append_right _
      (logged_mem_tryCallback_of_throw f _ _ e hthrow))
  · rw [set_of_resolve_ok (some f) jsonRoundTrip _ u' upd' hr']
  · rw [set_of_resolve_ok (some f) jsonRoundTrip _ u' upd' hr', hdata]
  · rw [notified_set_ok (some f) jsonRoundTrip _ u' upd' hr', hsubs]

theorem spec_C2_witness :
    resolveUpd demoStore.data demoUpd = Except.ok [("b", Jx.num 3)] ∧
    throwingCb (deepCopyObj (spreadMerge demoStore.data [("b", Jx.num 3)])) =
      Except.error "boom" ∧
    resolveUpd (spreadMerge demoStore.data [("b", Jx.num 3)]) (NewData.record [("a", Jx.num 9)]) =
      Except.ok [("a", Jx.num 9)] ∧
    ((Store.set (some throwingCb) jsonRoundTrip demoStore demoUpd).thrown = none ∧
      (Store.set (some throwingCb) jsonRoundTrip demoStore demoUpd).store.data =
        spreadMerge demoStore.data [("b", Jx.num 3)] ∧
      Event.logged "boom" ∈ (Store.set (some throwingCb) jsonRoundTrip demoStore demoUpd).events ∧
      (Store.set (some throwingCb) jsonRoundTrip demoStore demoUpd).notified =
        demoStore.subscribers ∧
      (Store.set (some throwingCb) jsonRoundTrip
        (Store.set (some throwingCb) jsonRoundTrip demoStore demoUpd).store
        (NewData.record [("a", Jx.num 9)])).thrown = none ∧
      (Store.set (some throwingCb) jsonRoundTrip
        (Store.set (some throwingCb) jsonRoundTrip demoStore demoUpd).store
        (NewData.record [("a", Jx.num 9)])).store.data =
        spreadMerge (spreadMerge demoStore.data [("b", Jx.num 3)]) [("a", Jx.num 9)] ∧
      (Store.set (some throwingCb) jsonRoundTrip
        (Store.set (some throwingCb) jsonRoundTrip demoStore demoUpd).store
        (NewData.record [("a", Jx.num 9)])).notified = demoStore.subscribers) :=
  ⟨rfl, rfl, rfl,
    spec_C2 throwingCb demoStore demoUpd (NewData.record [("a", Jx.num 9)])
      [("b", Jx.num 3)] [("a", Jx.num 9)] "boom" rfl rfl rfl⟩

/-- Claim C3: invoking the capability returned by `subscribe` removes exactly
that listener: it is no longer registered, every other listener stays
registered, an immediately following `set` sends it no notification, and every
other registered listener is still notified. -/
theorem spec_C3 (cb : Option (Obj → Except String Unit))
    (ser : Obj → Except String Obj) (st : Store) (id : Nat) (u : NewData) (upd : Obj)
    (h : resolveUpd st.data u = Except.ok upd) :
    id ∉ (unsubscribe (subscribe st id) id).subscribers ∧
    (∀ l, l ∈ (unsubscribe (subscribe st id) id).subscribers ↔
      (l ∈ st.subscribers ∧ l ≠ id)) ∧
    Event.notify id ∉ (Store.set cb ser (unsubscribe (subscribe st id) id) u).events ∧
    ∀ l ∈ st.subscribers, l ≠ id →
      Event.notify l ∈ (Store.set cb ser (unsubscribe (subscribe st id) id) u).events := by
  have hmem := mem_unsubscribe_subscribe st id
  have h' : resolveUpd (unsubscribe (subscribe st id) id).data u = Except.ok upd := h
  refine ⟨fun hin => ((hmem id).mp hin).2 rfl, hmem, ?_, ?_⟩
  · intro hin
    exact ((hmem id).mp ((notify_mem_set_events cb ser _ u upd id h').mp hin)).2 rfl
  · intro l hl hne
    exact (notify_mem_set_events cb ser _ u upd l h').mpr ((hmem l).mpr ⟨hl, hne⟩)

theorem spec_C3_witness :
    resolveUpd demoStore.data demoUpd = Except.ok [("b", Jx.num 3)] ∧
    (5 ∉ (unsubscribe (subscribe demoStore 5) 5).subscribers ∧
      (∀ l, l ∈ (unsubscribe (subscribe demoStore 5) 5).subscribers ↔
        (l ∈ demoStore.subscribers ∧ l ≠ 5)) ∧
      Event.notify 5 ∉
        (Store.set none jsonRoundTrip (unsubscribe (subscribe demoStore 5) 5) demoUpd).events ∧
      ∀ l ∈ demoStore.subscribers, l ≠ 5 →
        Event.notify l ∈
          (Store.set none jsonRoundTrip (unsubscribe (subscribe demoStore 5) 5) demoUpd).events) :=
  ⟨rfl, spec_C3 none jsonRoundTrip demoStore 5 demoUpd [("b", Jx.num 3)] rfl⟩

/-- Claim C8: subscribing the identical listener twice is idempotent — the
registry behaves as an identity-deduplicated set, the second registration is a
no-op, and during a notification cycle the listener is notified exactly once
(given the registry's duplicate-freedom invariant). -/
theorem spec_C8 (cb : Option (Obj → Except String Unit))
    (ser : Obj → Except String Obj) (st : Store) (id : Nat) (u : NewData) (upd : Obj)
    (hnd : st.subscribers.Nodup)
    (h : resolveUpd st.data u = Except.ok upd) :
    subscribe (subscribe st id) id = subscribe st id ∧
    ((Store.set cb ser (subscribe st id) u).notified).count id = 1 := by
  have h' : resolveUpd (subscribe st id).data u = Except.ok upd := h
  constructor
  · unfold subscribe
    by_cases hid : id ∈ st.subscribers
    · simp [hid]
    · simp [hid]
  · rw [notified_set_ok cb ser (subscribe st id) u upd h']
    unfold subscribe
    by_cases hid : id ∈ st.subscribers
    · simp only [if_pos hid]
      exact List.count_eq_one_of_mem hnd hid
    · simp only [if_neg hid]
      rw [List.count_append, List.count_eq_zero_of_not_mem hid]
      simp [List.count_singleton]

theorem spec_C8_witness :
    demoStore.subscribers.Nodup ∧
    resolveUpd demoStore.data demoUpd = Except.ok [("b", Jx.num 3)] ∧
    (subscribe (subscribe demoStore 5) 5 = subscribe demoStore 5 ∧
      ((Store.set none jsonRoundTrip (subscribe demoStore 5) demoUpd).notified).count 5 = 1) :=
  ⟨by decide, rfl,
    spec_C8 none jsonRoundTrip demoStore 5 demoUpd [("b", Jx.num 3)] (by decide) rfl⟩
